import Mathlib

/-!
Shallow embedding of the shader-playground repository.

The repository is a fragment-shader playground: a `Renderer` class (src/unnamed/part_002)
owning a THREE.js scene, camera, clock and WebGL context, and three editor-app variants
(src/src/components/App.tsx, src/unnamed/part_000, src/unnamed/part_001) that drive it.

The embedding below translates, from the source:
  * the WebGL object lifecycle of `Renderer.createShader` / `Renderer.verifyShaderProgram`
    (object allocation, deletion and the throw-on-failure control flow); the GL driver's
    compile/link verdicts and info logs are external nondeterminism and are modelled as an
    oracle (`GLDriver`) quantified over in the theorems;
  * the `Renderer` state (scene, camera generation, clock start, enabled flag) with
    `switchScene`, `getElapsedTime`, `getResolution`, and a GPU-side event log recording
    every `dispose` / `renderLists.dispose` / scene-attach call, in program order;
  * the App component state of the `App.tsx` variant and of the `part_000` variant:
    committed/draft fragment source, error text, the `useEffect` compile cycle (including
    the React cleanup that clears `scene.onDraw` before the effect re-runs), the
    wheel/mousemove listener closures, and the per-frame `onDraw` uniform refresh.

JS numbers are modelled as exact rationals (`Rat`); strings as `String`.
-/

namespace ShaderPlayground

/-! ## WebGL object model (Renderer.createShader / Renderer.verifyShaderProgram) -/

/-- Live GL objects of the WebGL context: allocated-but-not-deleted shader and program
ids, with fresh-id allocators. `gl.createShader` / `gl.createProgram` allocate,
`gl.deleteShader` / `gl.deleteProgram` remove. -/
structure GLState where
  nextShaderId : Nat
  liveShaders : List Nat
  nextProgramId : Nat
  livePrograms : List Nat
deriving Repr, DecidableEq

/-- The GL driver's verdicts for the three pipeline steps performed by
`verifyShaderProgram` (vertex compile, fragment compile, program link), together with
the info logs it reports (`getShaderInfoLog` / `getProgramInfoLog` may return null,
hence `Option String`). The driver is external; the theorems quantify over it. -/
structure GLDriver where
  vertexOk : Bool
  vertexLog : Option String
  fragmentOk : Bool
  fragmentLog : Option String
  linkOk : Bool
  linkLog : Option String
deriving Repr, DecidableEq

/-- An empty GL context. -/
def glInit : GLState := { nextShaderId := 0, liveShaders := [], nextProgramId := 0, livePrograms := [] }

/-- `Renderer.createShader(src, type)`: creates a shader object, sources and compiles it;
when `COMPILE_STATUS` is false it throws `getShaderInfoLog(shader) ?? "Cannot compile"`
without deleting the shader object; otherwise it returns the shader. `ok`/`log` are the
driver's verdict for this compile call. -/
def createShader (ok : Bool) (log : Option String) (st : GLState) :
    GLState × Except String Nat :=
  let id := st.nextShaderId
  let st' := { st with nextShaderId := id + 1, liveShaders := id :: st.liveShaders }
  if ok then (st', Except.ok id) else (st', Except.error (log.getD "Cannot compile"))

/-- `gl.deleteShader`. -/
def deleteShader (id : Nat) (st : GLState) : GLState :=
  { st with liveShaders := st.liveShaders.erase id }

/-- `gl.deleteProgram`. -/
def deleteProgram (id : Nat) (st : GLState) : GLState :=
  { st with livePrograms := st.livePrograms.erase id }

/-- `Renderer.verifyShaderProgram(vertex, fragment)`: creates a program, compiles the
preamble-wrapped vertex and fragment sources via `createShader` (which throws on compile
failure), attaches both shaders, deletes both shaders, links, throws
`getProgramInfoLog(program) ?? "Cannot link"` when `LINK_STATUS` is false, and finally
deletes the program. Compilation/linking of the wrapped sources is delegated to the
driver oracle `drv`. -/
def verifyShaderProgram (drv : GLDriver) (st : GLState) : GLState × Except String Unit :=
  let pid := st.nextProgramId
  let st0 := { st with nextProgramId := pid + 1, livePrograms := pid :: st.livePrograms }
  match createShader drv.vertexOk drv.vertexLog st0 with
  | (st1, Except.error e) => (st1, Except.error e)
  | (st1, Except.ok vs) =>
    match createShader drv.fragmentOk drv.fragmentLog st1 with
    | (st2, Except.error e) => (st2, Except.error e)
    | (st2, Except.ok fs) =>
      let st3 := deleteShader vs st2
      let st4 := deleteShader fs st3
      if drv.linkOk then (deleteProgram pid st4, Except.ok ())
      else (st4, Except.error (drv.linkLog.getD "Cannot link"))

/-! ## Renderer model (src/unnamed/part_002) -/

/-- `mesh.material` in THREE.js is either a single material or an array of materials;
`switchScene` handles both (`Array.isArray` branch). Materials are identified by id. -/
inductive MaterialSlot
  | single (id : Nat)
  | many (ids : List Nat)
deriving Repr, DecidableEq

/-- A THREE.Mesh as this app builds them: a name (`""` when never assigned), a geometry
id, its material(s), and the optional `userData.material` reference the `App.tsx`
variant stores on its quads. -/
structure MeshObj where
  name : String
  geomId : Nat
  mats : MaterialSlot
  userDataMat : Option Nat
deriving Repr, DecidableEq

/-- A child of the scene: a mesh, or some other (non-Mesh) Object3D that `switchScene`'s
`instanceof Mesh` check skips. -/
inductive SceneChild
  | mesh (m : MeshObj)
  | other (nm : String)
deriving Repr, DecidableEq

/-- The `name` property of a scene child. -/
def SceneChild.name : SceneChild → String
  | .mesh m => m.name
  | .other nm => nm

/-- The `onDraw` callback of `SceneWithCallback` as installed by the editor apps: the
closure is determined by the material it writes to and the resolution pair it captured
when the effect ran (`const resolution = renderer.getResolution()`). -/
structure DrawHook where
  matId : Nat
  capturedRes : Rat × Rat
deriving Repr, DecidableEq

/-- `SceneWithCallback`: a named scene, its children, and the optional per-frame
`onDraw` callback. -/
structure Scene where
  name : String
  children : List SceneChild
  onDraw : Option DrawHook
deriving Repr, DecidableEq

/-- GPU-side calls, recorded in program order: `geometry.dispose()`,
`material.dispose()`, `renderLists.dispose()`, and `scene.add` of a mesh carrying a
material (the moment a new material is attached to the scene). -/
inductive REvent
  | disposeGeom (id : Nat)
  | disposeMat (id : Nat)
  | renderListsDispose
  | attachMat (id : Nat)
deriving Repr, DecidableEq

/-- The `Renderer` class state: active scene (`none` only before the constructor's own
`switchScene("empty")` call), whether `threeRenderer` has been constructed yet (the
constructor calls `switchScene` before creating it, hence the `if (this.threeRenderer)`
guard), the camera generation (bumped by each `recreateCamera()`), the clock origin
(`new THREE.Clock()` at construction), the `enabled` flag of the render loop, the GL
context, and the GPU event log. -/
structure RendererState where
  scene : Option Scene
  hasContext : Bool
  cameraGen : Nat
  clockStart : Rat
  enabled : Bool
  gl : GLState
  log : List REvent
deriving Repr, DecidableEq

/-- The dispose calls `switchScene` issues for one mesh: `geometry.dispose()` then its
material(s)' `dispose()` (array branch maps over the array). -/
def disposeMesh (m : MeshObj) : List REvent :=
  REvent.disposeGeom m.geomId ::
    (match m.mats with
     | .single i => [REvent.disposeMat i]
     | .many l => l.map REvent.disposeMat)

/-- The dispose calls `switchScene` issues over `scene.children` (non-meshes skipped). -/
def disposeChildren (cs : List SceneChild) : List REvent :=
  (cs.map fun c =>
    match c with
    | .mesh m => disposeMesh m
    | .other _ => []).flatten

/-- The material ids of a mesh. -/
def MeshObj.matIds (m : MeshObj) : List Nat :=
  match m.mats with
  | .single i => [i]
  | .many l => l

/-- `Renderer.switchScene(name)`: when no scene exists yet or the active scene's name
differs, dispose geometry and material(s) of every mesh child, dispose the renderer's
render lists (when `threeRenderer` exists), install a fresh empty `SceneWithCallback`
with the given name, and `recreateCamera()`; otherwise do nothing. -/
def Renderer.switchScene (name : String) (st : RendererState) : RendererState :=
  match st.scene with
  | some sc =>
    if sc.name = name then st
    else
      { st with
        log := st.log ++ disposeChildren sc.children ++
          (if st.hasContext then [REvent.renderListsDispose] else []),
        scene := some { name := name, children := [], onDraw := none },
        cameraGen := st.cameraGen + 1 }
  | none =>
      { st with
        log := st.log ++ (if st.hasContext then [REvent.renderListsDispose] else []),
        scene := some { name := name, children := [], onDraw := none },
        cameraGen := st.cameraGen + 1 }

/-- `Renderer.getElapsedTime()`: seconds since the clock origin, `now` being the current
wall-clock instant. -/
def Renderer.getElapsedTime (now : Rat) (st : RendererState) : Rat :=
  now - st.clockStart

/-- The browser environment a step runs in: current time and
`[window.innerWidth, window.innerHeight]`. -/
structure Env where
  now : Rat
  window : Rat × Rat
deriving Repr, DecidableEq

/-- `Renderer.getResolution()`: `[window.innerWidth, window.innerHeight]`. -/
def Renderer.getResolution (env : Env) : Rat × Rat := env.window

/-- `Renderer.verifyShaderProgram` viewed on the whole renderer state: it only touches
the GL context. -/
def Renderer.verify (drv : GLDriver) (st : RendererState) : RendererState × Except String Unit :=
  let r := verifyShaderProgram drv st.gl
  ({ st with gl := r.1 }, r.2)

/-- The `Renderer` constructor: `enabled = false`, `switchScene("empty")` while
`threeRenderer` is still undefined, then the WebGL renderer is created and
`recreateCamera()` runs; the clock starts at construction time `now`. -/
def Renderer.construct (now : Rat) (gl0 : GLState) : RendererState :=
  let st : RendererState :=
    { scene := none, hasContext := false, cameraGen := 0, clockStart := now,
      enabled := false, gl := gl0, log := [] }
  let st := Renderer.switchScene "empty" st
  { st with hasContext := true, cameraGen := st.cameraGen + 1 }

/-! ## Editor app model (src/src/components/App.tsx and src/unnamed/part_000) -/

/-- The uniform values of a `THREE.ShaderMaterial` built by the apps. -/
structure Uniforms where
  time : Rat
  resolution : Rat × Rat
  mouse : Rat × Rat
  drag : Rat × Rat
  zoom : Rat
deriving Repr, DecidableEq

/-- The mutable variables closed over by the effect's `wheel`/`mousemove` listeners and
read by `onDraw`: `mousePos`, `mouseDrag`, `zoom`. -/
structure PointerState where
  mousePos : Rat × Rat
  mouseDrag : Rat × Rat
  zoom : Rat
deriving Repr, DecidableEq

/-- The listener closure's initial values:
`mousePos = {x:0,y:0}`, `mouseDrag = {x:0,y:0}`, `zoom = 1`. -/
def initPointer : PointerState := { mousePos := (0, 0), mouseDrag := (0, 0), zoom := 1 }

/-- The `wheel` listener: `zoom -= event.deltaY * 0.001`. -/
def onWheel (deltaY : Rat) (p : PointerState) : PointerState :=
  { p with zoom := p.zoom - deltaY * 0.001 }

/-- A `mousemove` event: `clientX`, `clientY`, `buttons`. -/
structure MouseEvent where
  clientX : Rat
  clientY : Rat
  buttons : Nat
deriving Repr, DecidableEq

/-- The `mousemove` listener: computes the delta to the previous position, adds it to
`mouseDrag` when `event.buttons === 1` (primary button held), and records the new
position. -/
def onMouseMove (e : MouseEvent) (p : PointerState) : PointerState :=
  let dx := e.clientX - p.mousePos.1
  let dy := e.clientY - p.mousePos.2
  { p with
    mousePos := (e.clientX, e.clientY),
    mouseDrag :=
      if e.buttons = 1 then (p.mouseDrag.1 + dx, p.mouseDrag.2 + dy) else p.mouseDrag }

/-- `THREE.Object3D.getObjectByName` as invoked on the scene: the scene object itself is
checked first (`this.name === name` in `getObjectByProperty`), then the children. -/
inductive Found
  | self
  | child (c : SceneChild)
deriving Repr, DecidableEq

/-- `renderer.scene.getObjectByName(n)`. -/
def Scene.getObjectByName (sc : Scene) (n : String) : Option Found :=
  if sc.name = n then some Found.self
  else (sc.children.find? fun c => c.name = n).map Found.child

/-- `renderer.scene.remove(obj)`: removes the object from `children` when it is a child;
removing the scene from itself is a no-op (THREE `remove` only splices `children`). -/
def Scene.removeFound (sc : Scene) (f : Found) : Scene :=
  match f with
  | .self => sc
  | .child c => { sc with children := sc.children.erase c }

/-- The material store: each live `ShaderMaterial`'s id with its current uniform
values, in creation order. -/
def updateMaterial (id : Nat) (u : Uniforms) (ms : List (Nat × Uniforms)) :
    List (Nat × Uniforms) :=
  ms.map fun p => if p.1 = id then (id, u) else p

/-- The uniforms of material `id`. -/
def matById (id : Nat) (ms : List (Nat × Uniforms)) : Option Uniforms :=
  (ms.find? fun p => p.1 = id).map Prod.snd

/-- `mouse` uniform as written by `onDraw`:
`(mousePos.x / resolution[0], mousePos.y / resolution[1])`. -/
def mouseUniform (p : PointerState) (res : Rat × Rat) : Rat × Rat :=
  (p.mousePos.1 / res.1, p.mousePos.2 / res.2)

/-- `drag` uniform as written by `onDraw`:
`(mouseDrag.x / resolution[0], mouseDrag.y / resolution[1])`. -/
def dragUniform (p : PointerState) (res : Rat × Rat) : Rat × Rat :=
  (p.mouseDrag.1 / res.1, p.mouseDrag.2 / res.2)

/-- React component state of the editor apps plus the renderer they drive.
`fragmentShader` is the committed source (a `useEffect` dependency), `fragmentShaderTemp`
the draft, `errors` the displayed diagnostic. `materials` is the store of constructed
`ShaderMaterial`s, `nextMatId` a fresh-id allocator. `pointer` is the listener closure
the currently installed `onDraw` reads (each effect run creates fresh closures).
`geomId` is the `useMemo`-cached `PlaneGeometry` of the `App.tsx` variant; `nextGeomId`
allocates the per-compile geometries of the `part_000` variant. -/
structure AppState where
  fragmentShader : String
  fragmentShaderTemp : String
  errors : String
  showEditors : Bool
  renderer : RendererState
  materials : List (Nat × Uniforms)
  nextMatId : Nat
  pointer : PointerState
  geomId : Nat
  nextGeomId : Nat
deriving Repr, DecidableEq

/-- The React effect cleanup returned by the compile `useEffect`:
`renderer.scene.onDraw = undefined`. React runs it before the effect body re-runs. -/
def cleanupEffect (st : AppState) : AppState :=
  match st.renderer.scene with
  | some sc =>
      { st with renderer := { st.renderer with scene := some { sc with onDraw := none } } }
  | none => st

/-- Success path of the `App.tsx` effect, after `verifyShaderProgram` returned without
throwing (`r` is the renderer state at that point; its scene is always present since
`switchScene("quad")` just ran): build the `ShaderMaterial` with uniforms seeded from
the current elapsed time, the captured resolution, zero mouse/drag and zoom 1; look up
`"quadX"`, remove it and dispose its `userData.material` (the scene itself can never
match `"quadX"` since the active scene is named `"quad"`); add the new named quad
carrying the memoized geometry; install fresh listener closures and the new `onDraw`;
clear `errors`. -/
def effectAppSuccess (env : Env) (r : RendererState) (st : AppState) : AppState :=
  let sc := r.scene.getD { name := "quad", children := [], onDraw := none }
  let resolution := Renderer.getResolution env
  let matId := st.nextMatId
  let mat : Uniforms :=
    { time := Renderer.getElapsedTime env.now r, resolution := resolution,
      mouse := (0, 0), drag := (0, 0), zoom := 1 }
  let found := sc.getObjectByName "quadX"
  let sc1 := match found with
    | some f => sc.removeFound f
    | none => sc
  let dlog : List REvent :=
    match found with
    | some (Found.child (SceneChild.mesh m)) =>
        match m.userDataMat with
        | some i => [REvent.disposeMat i]
        | none => []
    | _ => []
  let quad : MeshObj :=
    { name := "quadX", geomId := st.geomId, mats := MaterialSlot.single matId,
      userDataMat := some matId }
  let sc2 : Scene :=
    { name := sc1.name, children := sc1.children ++ [SceneChild.mesh quad],
      onDraw := some { matId := matId, capturedRes := resolution } }
  let r2 := { r with scene := some sc2, log := r.log ++ dlog ++ [REvent.attachMat matId] }
  { st with
    renderer := r2,
    materials := st.materials ++ [(matId, mat)],
    nextMatId := matId + 1,
    pointer := initPointer,
    errors := "" }

/-- The `App.tsx` compile `useEffect` body: `switchScene("quad")`, capture the
resolution, `try { verifyShaderProgram; ...replace quad... } catch (e) { setErrors(e.message) }`. -/
def effectApp (env : Env) (drv : GLDriver) (st : AppState) : AppState :=
  let r := Renderer.switchScene "quad" st.renderer
  let vr := Renderer.verify drv r
  match vr.2 with
  | Except.error e => { st with renderer := vr.1, errors := e }
  | Except.ok _ => effectAppSuccess env vr.1 st

/-- Success path of the `part_000` effect: same material construction, but the old quad
is looked up under the name `"quad"` — which matches the active scene itself, so the
`remove` is a no-op — it is never disposed, and the freshly built quad is added without
a name (and with a fresh `PlaneGeometry`). `renderer.compile()` is a GPU warm-up with no
state effect here. -/
def effect000Success (env : Env) (r : RendererState) (st : AppState) : AppState :=
  let sc := r.scene.getD { name := "quad", children := [], onDraw := none }
  let resolution := Renderer.getResolution env
  let matId := st.nextMatId
  let mat : Uniforms :=
    { time := Renderer.getElapsedTime env.now r, resolution := resolution,
      mouse := (0, 0), drag := (0, 0), zoom := 1 }
  let sc1 := match sc.getObjectByName "quad" with
    | some f => sc.removeFound f
    | none => sc
  let gid := st.nextGeomId
  let quad : MeshObj :=
    { name := "", geomId := gid, mats := MaterialSlot.single matId, userDataMat := none }
  let sc2 : Scene :=
    { name := sc1.name, children := sc1.children ++ [SceneChild.mesh quad],
      onDraw := some { matId := matId, capturedRes := resolution } }
  let r2 := { r with scene := some sc2, log := r.log ++ [REvent.attachMat matId] }
  { st with
    renderer := r2,
    materials := st.materials ++ [(matId, mat)],
    nextMatId := matId + 1,
    nextGeomId := gid + 1,
    pointer := initPointer,
    errors := "" }

/-- The `part_000` compile `useEffect` body. -/
def effect000 (env : Env) (drv : GLDriver) (st : AppState) : AppState :=
  let r := Renderer.switchScene "quad" st.renderer
  let vr := Renderer.verify drv r
  match vr.2 with
  | Except.error e => { st with renderer := vr.1, errors := e }
  | Except.ok _ => effect000Success env vr.1 st

/-- The Compile button of `App.tsx`: `setFragmentShader(fragmentShaderTemp)`. When the
draft equals the committed source, React bails out of the state update and the effect
(whose dependency list is `[fragmentShader]`) does not re-run; otherwise the previous
effect's cleanup runs, then the effect body. -/
def compileClick (env : Env) (drv : GLDriver) (st : AppState) : AppState :=
  if st.fragmentShaderTemp = st.fragmentShader then st
  else effectApp env drv (cleanupEffect { st with fragmentShader := st.fragmentShaderTemp })

/-- The Compile button of the `part_000` variant. -/
def compileClick000 (env : Env) (drv : GLDriver) (st : AppState) : AppState :=
  if st.fragmentShaderTemp = st.fragmentShader then st
  else effect000 env drv (cleanupEffect { st with fragmentShader := st.fragmentShaderTemp })

/-- Editing the draft text in the editor widget. -/
def setFragmentShaderTemp (s : String) (st : AppState) : AppState :=
  { st with fragmentShaderTemp := s }

/-- One animation frame of `Renderer.renderLoop` as it affects the model: render the
scene, then invoke `scene.onDraw` when present, which writes the material's uniforms
from the current clock, the captured resolution, and the listener closure's current
`mousePos` / `mouseDrag` / `zoom`. (The resize branch only touches the drawing surface
and camera, neither of which the uniforms read.) -/
def renderFrame (env : Env) (st : AppState) : AppState :=
  match st.renderer.scene with
  | none => st
  | some sc =>
    match sc.onDraw with
    | none => st
    | some hk =>
      let u : Uniforms :=
        { time := Renderer.getElapsedTime env.now st.renderer,
          resolution := hk.capturedRes,
          mouse := mouseUniform st.pointer hk.capturedRes,
          drag := dragUniform st.pointer hk.capturedRes,
          zoom := st.pointer.zoom }
      { st with materials := updateMaterial hk.matId u st.materials }

/-- Number of children of the active scene. -/
def sceneChildCount (st : AppState) : Nat :=
  match st.renderer.scene with
  | some sc => sc.children.length
  | none => 0

/-- The `material.dispose()` events of a log. -/
def disposeMatEvents (l : List REvent) : List REvent :=
  l.filter fun e =>
    match e with
    | REvent.disposeMat _ => true
    | _ => false

/-- Spec formula for drag accumulation (from the spec's words, for comparison with the
code's `onMouseMove`): the componentwise sum `(Σ dx_i, Σ dy_i)` of the position deltas
of exactly those moves made while the primary button was held, `prev` being the position
the next delta is measured from. -/
def specHeldDeltaSum (prev : Rat × Rat) : List MouseEvent → Rat × Rat
  | [] => (0, 0)
  | e :: rest =>
      let s := specHeldDeltaSum (e.clientX, e.clientY) rest
      if e.buttons = 1 then (e.clientX - prev.1 + s.1, e.clientY - prev.2 + s.2) else s

/-! ## Concrete instances used by counterexamples and witnesses -/

/-- A driver that accepts everything. -/
def drvOk : GLDriver :=
  { vertexOk := true, vertexLog := none, fragmentOk := true, fragmentLog := none,
    linkOk := true, linkLog := none }

/-- A driver whose vertex compile step fails with log `"ERR_V"`. -/
def drvVertexFail : GLDriver :=
  { vertexOk := false, vertexLog := some "ERR_V", fragmentOk := true, fragmentLog := none,
    linkOk := true, linkLog := none }

/-- The fixed vertex source of the `part_000` variant. -/
def vertexShader000 : String :=
  "\n    varying vec2 iuv;\n\n    void main() \x7b\n        iuv = uv;\n        gl_Position = vec4(position, 1.0);\n    \x7d\n  "

/-- The initial fragment source of the `part_000` variant. -/
def initFragmentShader000 : String :=
  "varying vec2 iuv;\nuniform float time;\nuniform vec2 resolution;\n\nvoid main() \x7b\n    vec4 C = vec4(iuv.x, iuv.y, sin(time), 1.0);\n    if(iuv.x < 0.1)\x7b\n      C = vec4(0.0, 0.0, 1.0, 1.0);\n    \x7d\n    if(iuv.y < 0.1)\x7b\n      C = vec4(0.0, 0.0, 1.0, 1.0);\n    \x7d\n    if(iuv.x > 0.9)\x7b\n      C = vec4(0.0, 0.0, 1.0, 1.0);\n    \x7d\n    if(iuv.y > 0.9)\x7b\n      C = vec4(0.0, 0.0, 1.0, 1.0);\n    \x7d\n    gl_FragColor = C;\n\x7d\n  "

/-- The `part_000` app right after mount, renderer constructed at time 0: committed and
draft both hold the initial fragment source, no errors, editors shown. -/
def init000 : AppState :=
  { fragmentShader := initFragmentShader000,
    fragmentShaderTemp := initFragmentShader000,
    errors := "", showEditors := true,
    renderer := Renderer.construct 0 glInit,
    materials := [], nextMatId := 0, pointer := initPointer,
    geomId := 0, nextGeomId := 0 }

/-- Two consecutive successful compiles of the `part_000` variant: the mount effect, an
edit of the draft, and a Compile click. -/
def c1Run000 : AppState :=
  compileClick000 { now := 2, window := (640, 480) } drvOk
    (setFragmentShaderTemp "void main() \x7b \x7d"
      (effect000 { now := 1, window := (640, 480) } drvOk init000))

/-- The quad of a one-successful-compile `App.tsx` state: named `"quadX"`, material 5
recorded in `userData`. -/
def quadMesh5 : MeshObj :=
  { name := "quadX", geomId := 0, mats := MaterialSlot.single 5, userDataMat := some 5 }

/-- The draw hook installed for material 5, with captured resolution 640×480. -/
def hookMat5 : DrawHook := { matId := 5, capturedRes := (640, 480) }

/-- The `"quad"` scene holding exactly the `quadMesh5` quad, hook installed. -/
def sceneOneQuad : Scene :=
  { name := "quad", children := [SceneChild.mesh quadMesh5], onDraw := some hookMat5 }

/-- An `App.tsx` state after one successful compile: the `"quad"` scene holds exactly
one `"quadX"` quad whose material 5 is recorded in `userData`, the draw hook is
installed, and the user has edited the draft (`"B"` vs committed `"A"`). -/
def appStateOneQuad : AppState :=
  { fragmentShader := "A", fragmentShaderTemp := "B", errors := "", showEditors := true,
    renderer :=
      { scene := some sceneOneQuad,
        hasContext := true, cameraGen := 2, clockStart := 0, enabled := true,
        gl := { nextShaderId := 2, liveShaders := [], nextProgramId := 1, livePrograms := [] },
        log := [REvent.renderListsDispose, REvent.attachMat 5] },
    materials := [(5, { time := 1, resolution := (640, 480), mouse := (0, 0),
                        drag := (0, 0), zoom := 1 })],
    nextMatId := 6, pointer := initPointer, geomId := 0, nextGeomId := 0 }

/-- A multi-material mesh. -/
def meshB : MeshObj :=
  { name := "b", geomId := 9, mats := MaterialSlot.many [10, 11], userDataMat := none }

/-- A state for exercising `switchScene`: a scene holding a single-material mesh, a
non-mesh child, and the multi-material mesh `meshB`. -/
def scSwitch : Scene :=
  { name := "main",
    children :=
      [SceneChild.mesh { name := "a", geomId := 7, mats := MaterialSlot.single 8, userDataMat := none },
       SceneChild.other "helper",
       SceneChild.mesh meshB],
    onDraw := none }

/-- A renderer state whose active scene is `scSwitch`. -/
def rstSwitch : RendererState :=
  { scene := some scSwitch, hasContext := true, cameraGen := 3, clockStart := 0,
    enabled := true, gl := glInit, log := [] }

/-! ## Theorems -/

/-- `switchScene` never touches the GL context. -/
@[simp] theorem switchScene_gl (name : String) (st : RendererState) :
    (Renderer.switchScene name st).gl = st.gl := by
  cases h : st.scene with
  | none => simp [Renderer.switchScene, h]
  | some sc => by_cases hn : sc.name = name <;> simp [Renderer.switchScene, h, hn]

/-- `switchScene` never touches the clock origin. -/
@[simp] theorem switchScene_clockStart (name : String) (st : RendererState) :
    (Renderer.switchScene name st).clockStart = st.clockStart := by
  cases h : st.scene with
  | none => simp [Renderer.switchScene, h]
  | some sc => by_cases hn : sc.name = name <;> simp [Renderer.switchScene, h, hn]

/-- `switchScene` never touches the render loop's enabled flag. -/
@[simp] theorem switchScene_enabled (name : String) (st : RendererState) :
    (Renderer.switchScene name st).enabled = st.enabled := by
  cases h : st.scene with
  | none => simp [Renderer.switchScene, h]
  | some sc => by_cases hn : sc.name = name <;> simp [Renderer.switchScene, h, hn]

/-- `switchScene` never touches the context handle. -/
@[simp] theorem switchScene_hasContext (name : String) (st : RendererState) :
    (Renderer.switchScene name st).hasContext = st.hasContext := by
  cases h : st.scene with
  | none => simp [Renderer.switchScene, h]
  | some sc => by_cases hn : sc.name = name <;> simp [Renderer.switchScene, h, hn]

/-- Renderer part of `Renderer.verify`: only the GL context changes. -/
@[simp] theorem verify_fst (drv : GLDriver) (rst : RendererState) :
    (Renderer.verify drv rst).1 = { rst with gl := (verifyShaderProgram drv rst.gl).1 } :=
  rfl

/-- Outcome of `Renderer.verify` is the outcome of `verifyShaderProgram` on the
renderer's GL context. -/
@[simp] theorem verify_snd (drv : GLDriver) (rst : RendererState) :
    (Renderer.verify drv rst).2 = (verifyShaderProgram drv rst.gl).2 :=
  rfl

/-- `switchScene` to the already-active scene's name is the identity. -/
theorem switchScene_noop (name : String) (st : RendererState) (sc : Scene)
    (hsc : st.scene = some sc) (hn : sc.name = name) :
    Renderer.switchScene name st = st := by
  simp [Renderer.switchScene, hsc, hn]

/-- The effect cleanup only clears `scene.onDraw`. -/
@[simp] theorem cleanup_scene (st : AppState) :
    (cleanupEffect st).renderer.scene =
      st.renderer.scene.map fun sc => { sc with onDraw := none } := by
  cases h : st.renderer.scene <;> simp [cleanupEffect, h]

/-- The effect cleanup does not touch the GL context. -/
@[simp] theorem cleanup_gl (st : AppState) :
    (cleanupEffect st).renderer.gl = st.renderer.gl := by
  cases h : st.renderer.scene <;> simp [cleanupEffect, h]

/-- The effect cleanup does not touch the clock origin. -/
@[simp] theorem cleanup_clockStart (st : AppState) :
    (cleanupEffect st).renderer.clockStart = st.renderer.clockStart := by
  cases h : st.renderer.scene <;> simp [cleanupEffect, h]

/-- The effect cleanup does not touch the render loop's enabled flag. -/
@[simp] theorem cleanup_enabled (st : AppState) :
    (cleanupEffect st).renderer.enabled = st.renderer.enabled := by
  cases h : st.renderer.scene <;> simp [cleanupEffect, h]

/-- The effect cleanup does not touch the GPU event log. -/
@[simp] theorem cleanup_log (st : AppState) :
    (cleanupEffect st).renderer.log = st.renderer.log := by
  cases h : st.renderer.scene <;> simp [cleanupEffect, h]

/-- The effect cleanup does not touch the context handle. -/
@[simp] theorem cleanup_hasContext (st : AppState) :
    (cleanupEffect st).renderer.hasContext = st.renderer.hasContext := by
  cases h : st.renderer.scene <;> simp [cleanupEffect, h]

/-- The effect cleanup does not touch the committed source. -/
@[simp] theorem cleanup_fragmentShader (st : AppState) :
    (cleanupEffect st).fragmentShader = st.fragmentShader := by
  cases h : st.renderer.scene <;> simp [cleanupEffect, h]

/-- The effect cleanup does not touch the draft source. -/
@[simp] theorem cleanup_fragmentShaderTemp (st : AppState) :
    (cleanupEffect st).fragmentShaderTemp = st.fragmentShaderTemp := by
  cases h : st.renderer.scene <;> simp [cleanupEffect, h]

/-- The effect cleanup does not touch the displayed errors. -/
@[simp] theorem cleanup_errors (st : AppState) :
    (cleanupEffect st).errors = st.errors := by
  cases h : st.renderer.scene <;> simp [cleanupEffect, h]

/-- The effect cleanup does not touch the material store. -/
@[simp] theorem cleanup_materials (st : AppState) :
    (cleanupEffect st).materials = st.materials := by
  cases h : st.renderer.scene <;> simp [cleanupEffect, h]

/-- The effect cleanup does not touch the material allocator. -/
@[simp] theorem cleanup_nextMatId (st : AppState) :
    (cleanupEffect st).nextMatId = st.nextMatId := by
  cases h : st.renderer.scene <;> simp [cleanupEffect, h]

/-- The effect cleanup does not touch the pointer closure. -/
@[simp] theorem cleanup_pointer (st : AppState) :
    (cleanupEffect st).pointer = st.pointer := by
  cases h : st.renderer.scene <;> simp [cleanupEffect, h]

/-- The effect cleanup does not touch the memoized geometry. -/
@[simp] theorem cleanup_geomId (st : AppState) :
    (cleanupEffect st).geomId = st.geomId := by
  cases h : st.renderer.scene <;> simp [cleanupEffect, h]

/-- A Compile click on a changed draft with a driver that accepts the sources runs the
success path of the effect. -/
theorem compileClick_ok (env : Env) (drv : GLDriver) (st : AppState)
    (hne : st.fragmentShaderTemp ≠ st.fragmentShader)
    (hok : (verifyShaderProgram drv st.renderer.gl).2 = Except.ok ()) :
    compileClick env drv st =
      effectAppSuccess env
        (Renderer.verify drv (Renderer.switchScene "quad"
          (cleanupEffect { st with fragmentShader := st.fragmentShaderTemp }).renderer)).1
        (cleanupEffect { st with fragmentShader := st.fragmentShaderTemp }) := by
  have hgl :
      (Renderer.switchScene "quad"
        (cleanupEffect { st with fragmentShader := st.fragmentShaderTemp }).renderer).gl =
        st.renderer.gl := by
    simp
  have hv2 :
      (Renderer.verify drv (Renderer.switchScene "quad"
        (cleanupEffect { st with fragmentShader := st.fragmentShaderTemp }).renderer)).2 =
        Except.ok () := by
    show (verifyShaderProgram drv _).2 = Except.ok ()
    rw [hgl]
    exact hok
  rw [compileClick, if_neg hne, effectApp]
  rw [hv2]

/-- A Compile click on a changed draft with a driver that rejects the sources runs the
catch branch: the cleaned-up state with only the renderer's GL allocations and the
error text updated. -/
theorem compileClick_err (env : Env) (drv : GLDriver) (st : AppState) (msg : String)
    (hne : st.fragmentShaderTemp ≠ st.fragmentShader)
    (herr : (verifyShaderProgram drv st.renderer.gl).2 = Except.error msg) :
    compileClick env drv st =
      { cleanupEffect { st with fragmentShader := st.fragmentShaderTemp } with
        renderer := (Renderer.verify drv (Renderer.switchScene "quad"
          (cleanupEffect { st with fragmentShader := st.fragmentShaderTemp }).renderer)).1,
        errors := msg } := by
  have hgl :
      (Renderer.switchScene "quad"
        (cleanupEffect { st with fragmentShader := st.fragmentShaderTemp }).renderer).gl =
        st.renderer.gl := by
    simp
  have hv2 :
      (Renderer.verify drv (Renderer.switchScene "quad"
        (cleanupEffect { st with fragmentShader := st.fragmentShaderTemp }).renderer)).2 =
        Except.error msg := by
    show (verifyShaderProgram drv _).2 = Except.error msg
    rw [hgl]
    exact herr
  rw [compileClick, if_neg hne, effectApp]
  rw [hv2]

/-- C3 counterexample: the claim "verifyShaderProgram deletes every intermediate GL
object it creates on every execution path" is false: when the vertex compile step
fails, both the shader object and the program object created before the throw stay
allocated. -/
theorem c3_counterexample :
    ¬ ((verifyShaderProgram drvVertexFail glInit).1.liveShaders = glInit.liveShaders ∧
       (verifyShaderProgram drvVertexFail glInit).1.livePrograms = glInit.livePrograms) := by
  decide

/-- C3 amended: `verifyShaderProgram` deletes every intermediate GL object exactly on
the success path; when a compile step fails, the failing shader (and, when the fragment
compile fails, also the already-compiled vertex shader) stays allocated, and on every
failing path (compile or link) the program object stays allocated. -/
theorem c3_delete_balance (drv : GLDriver) (st : GLState) :
    (verifyShaderProgram drv st).1.liveShaders =
      (if drv.vertexOk then
        (if drv.fragmentOk then st.liveShaders
         else (st.nextShaderId + 1) :: st.nextShaderId :: st.liveShaders)
       else st.nextShaderId :: st.liveShaders) ∧
    (verifyShaderProgram drv st).1.livePrograms =
      (if drv.vertexOk ∧ drv.fragmentOk ∧ drv.linkOk then st.livePrograms
       else st.nextProgramId :: st.livePrograms) := by
  obtain ⟨vok, vlog, fok, flog, lok, llog⟩ := drv
  cases vok <;> cases fok <;> cases lok <;>
    simp [verifyShaderProgram, createShader, deleteShader, deleteProgram, List.erase_cons]

/-- C7: `verifyShaderProgram` raises exactly when a compile or link step fails, the
raised message is the driver-reported info log of the first failing step — vertex
compile, then fragment compile, then program link — and it returns silently when all
three steps succeed (given that the driver reports a log for each step). -/
theorem c7_first_failing_log (drv : GLDriver) (st : GLState) (lv lf ll : String)
    (hv : drv.vertexLog = some lv) (hf : drv.fragmentLog = some lf)
    (hl : drv.linkLog = some ll) :
    (verifyShaderProgram drv st).2 =
      (if drv.vertexOk = false then Except.error lv
       else if drv.fragmentOk = false then Except.error lf
       else if drv.linkOk = false then Except.error ll
       else Except.ok ()) := by
  obtain ⟨vok, vlog, fok, flog, lok, llog⟩ := drv
  cases hv; cases hf; cases hl
  cases vok <;> cases fok <;> cases lok <;>
    simp [verifyShaderProgram, createShader, deleteShader, deleteProgram]

/-- C7 witness: a driver whose fragment compile fails (vertex and link fine) makes
`verifyShaderProgram` raise the fragment log. -/
theorem c7_first_failing_log_witness :
    (verifyShaderProgram
      { vertexOk := true, vertexLog := some "V", fragmentOk := false,
        fragmentLog := some "F", linkOk := true, linkLog := some "L" } glInit).2 =
      Except.error "F" := by
  simpa using c7_first_failing_log
    { vertexOk := true, vertexLog := some "V", fragmentOk := false,
      fragmentLog := some "F", linkOk := true, linkLog := some "L" } glInit "V" "F" "L"
    rfl rfl rfl

/-- Folding the `wheel` listener subtracts `0.001` times the accumulated `deltaY` from
the starting zoom. -/
theorem foldl_onWheel_zoom (ds : List Rat) (p : PointerState) :
    (ds.foldl (fun q d => onWheel d q) p).zoom = p.zoom - 0.001 * ds.sum := by
  induction ds generalizing p with
  | nil => simp
  | cons d ds ih =>
      rw [List.foldl_cons, ih]
      simp only [onWheel, List.sum_cons]
      ring

/-- C9: the zoom scalar starts at `1.0`, each wheel event with `deltaY = d` replaces it
by `zoom - d * 0.001`, and a sequence of wheel events with deltas `d_1..d_n` yields
`zoom = 1.0 - 0.001 * Σ d_i`. -/
theorem c9_zoom_linear :
    (∀ (d : Rat) (p : PointerState), (onWheel d p).zoom = p.zoom - d * 0.001) ∧
    (∀ ds : List Rat,
      (ds.foldl (fun q d => onWheel d q) initPointer).zoom = 1 - 0.001 * ds.sum) := by
  refine ⟨fun d p => rfl, fun ds => ?_⟩
  rw [foldl_onWheel_zoom]
  simp [initPointer]

/-- Folding the `mousemove` listener adds exactly the held-move delta sum (taken from
the closure's current position) to the starting drag vector. -/
theorem foldl_onMouseMove_drag (events : List MouseEvent) (p : PointerState) :
    (events.foldl (fun q e => onMouseMove e q) p).mouseDrag =
      (p.mouseDrag.1 + (specHeldDeltaSum p.mousePos events).1,
       p.mouseDrag.2 + (specHeldDeltaSum p.mousePos events).2) := by
  induction events generalizing p with
  | nil => simp [specHeldDeltaSum]
  | cons e es ih =>
      rw [List.foldl_cons, ih]
      simp only [onMouseMove, specHeldDeltaSum]
      by_cases h : e.buttons = 1
      · simp only [h, if_true, Prod.mk.injEq]
        exact ⟨by ring, by ring⟩
      · simp [h]

/-- C8: starting from a zero drag vector, any sequence of pointer moves leaves
`mouseDrag` equal to the sum of the deltas of the moves made while the primary button
was held (moves without it contribute zero), and the drag uniform pushed by `onDraw` is
that sum normalized componentwise by the resolution. -/
theorem c8_drag_normalized_sum :
    (∀ events : List MouseEvent,
      (events.foldl (fun q e => onMouseMove e q) initPointer).mouseDrag =
        specHeldDeltaSum (0, 0) events) ∧
    (∀ (events : List MouseEvent) (w h : Rat),
      dragUniform (events.foldl (fun q e => onMouseMove e q) initPointer) (w, h) =
        ((specHeldDeltaSum (0, 0) events).1 / w,
         (specHeldDeltaSum (0, 0) events).2 / h)) := by
  have base : ∀ events : List MouseEvent,
      (events.foldl (fun q e => onMouseMove e q) initPointer).mouseDrag =
        specHeldDeltaSum (0, 0) events := by
    intro events
    rw [foldl_onMouseMove_drag]
    simp [initPointer]
  refine ⟨base, fun events w h => ?_⟩
  simp only [dragUniform, base]

/-- Every mesh of a child list has its geometry and all its materials disposed by
`disposeChildren`. -/
theorem mem_disposeChildren (m : MeshObj) (cs : List SceneChild)
    (hm : SceneChild.mesh m ∈ cs) :
    REvent.disposeGeom m.geomId ∈ disposeChildren cs ∧
    ∀ i ∈ m.matIds, REvent.disposeMat i ∈ disposeChildren cs := by
  have hsub : ∀ e ∈ disposeMesh m, e ∈ disposeChildren cs := by
    intro e he
    apply List.mem_flatten.mpr
    exact ⟨disposeMesh m, List.mem_map_of_mem _ hm, he⟩
  constructor
  · exact hsub _ (by simp [disposeMesh])
  · intro i hi
    apply hsub
    cases hms : m.mats with
    | single j =>
        have hij : i = j := by simpa [MeshObj.matIds, hms] using hi
        simp [disposeMesh, hms, hij]
    | many l =>
        have hil : i ∈ l := by simpa [MeshObj.matIds, hms] using hi
        simp only [disposeMesh, hms, List.mem_cons]
        exact Or.inr (List.mem_map_of_mem _ hil)

/-- C5: `switchScene(name)` is a no-op when the active scene already has that name;
otherwise it installs a fresh scene with the given name and zero drawables, appends to
the GPU log the dispose of every mesh's geometry and every one of its materials followed
by the render-list release, and resets the camera. It is a total function (no failure
path). -/
theorem c5_switchScene (name : String) (st : RendererState) (sc : Scene)
    (hsc : st.scene = some sc) (hctx : st.hasContext = true) :
    (sc.name = name → Renderer.switchScene name st = st) ∧
    (sc.name ≠ name →
      (Renderer.switchScene name st).scene =
        some { name := name, children := [], onDraw := none } ∧
      (Renderer.switchScene name st).log =
        st.log ++ disposeChildren sc.children ++ [REvent.renderListsDispose] ∧
      (Renderer.switchScene name st).cameraGen = st.cameraGen + 1 ∧
      ∀ m : MeshObj, SceneChild.mesh m ∈ sc.children →
        REvent.disposeGeom m.geomId ∈ (Renderer.switchScene name st).log ∧
        ∀ i ∈ m.matIds, REvent.disposeMat i ∈ (Renderer.switchScene name st).log) := by
  constructor
  · intro hn
    exact switchScene_noop name st sc hsc hn
  · intro hn
    have hs : Renderer.switchScene name st =
        { st with
          log := st.log ++ disposeChildren sc.children ++ [REvent.renderListsDispose],
          scene := some { name := name, children := [], onDraw := none },
          cameraGen := st.cameraGen + 1 } := by
      simp [Renderer.switchScene, hsc, hn, hctx]
    refine ⟨by rw [hs], by rw [hs], by rw [hs], ?_⟩
    intro m hm
    have hmem := mem_disposeChildren m sc.children hm
    rw [hs]
    constructor
    · simp only [List.mem_append]
      exact Or.inl (Or.inr hmem.1)
    · intro i hi
      simp only [List.mem_append]
      exact Or.inl (Or.inr (hmem.2 i hi))

/-- C5 witness: switching `rstSwitch` (active scene `"main"` with two meshes, one of
them multi-material, and one non-mesh child) to `"fresh"` disposes geometries 7 and 9
and materials 8, 10, 11, releases the render lists, installs the empty `"fresh"` scene
and bumps the camera generation. -/
theorem c5_switchScene_witness :
    (Renderer.switchScene "fresh" rstSwitch).scene =
      some { name := "fresh", children := [], onDraw := none } ∧
    (Renderer.switchScene "fresh" rstSwitch).log =
      [REvent.disposeGeom 7, REvent.disposeMat 8, REvent.disposeGeom 9,
       REvent.disposeMat 10, REvent.disposeMat 11, REvent.renderListsDispose] ∧
    (Renderer.switchScene "fresh" rstSwitch).cameraGen = 4 ∧
    REvent.disposeGeom 9 ∈ (Renderer.switchScene "fresh" rstSwitch).log ∧
    REvent.disposeMat 11 ∈ (Renderer.switchScene "fresh" rstSwitch).log := by
  have h := (c5_switchScene "fresh" rstSwitch scSwitch rfl rfl).2 (by decide)
  refine ⟨h.1, ?_, h.2.2.1, ?_, ?_⟩
  · rw [h.2.1]
    rfl
  · exact (h.2.2.2 meshB (by decide)).1
  · exact (h.2.2.2 meshB (by decide)).2 11 (by decide)

/-- Fields of the success path of the `App.tsx` effect: committed/draft text untouched,
errors reset, a single new material appended with uniforms seeded from the current
elapsed time, the captured resolution, zero mouse/drag and zoom 1, and the renderer's
clock and enabled flag untouched. -/
theorem effectAppSuccess_fields (env : Env) (r : RendererState) (st : AppState) :
    (effectAppSuccess env r st).fragmentShader = st.fragmentShader ∧
    (effectAppSuccess env r st).fragmentShaderTemp = st.fragmentShaderTemp ∧
    (effectAppSuccess env r st).errors = "" ∧
    (effectAppSuccess env r st).nextMatId = st.nextMatId + 1 ∧
    (effectAppSuccess env r st).renderer.clockStart = r.clockStart ∧
    (effectAppSuccess env r st).renderer.enabled = r.enabled ∧
    (effectAppSuccess env r st).materials =
      st.materials ++ [(st.nextMatId,
        { time := Renderer.getElapsedTime env.now r,
          resolution := Renderer.getResolution env,
          mouse := (0, 0), drag := (0, 0), zoom := 1 })] := by
  refine ⟨rfl, rfl, rfl, rfl, rfl, rfl, rfl⟩

/-- C4: a Compile click (with a draft that differs from the committed text, so that the
React state update is not bailed out) always replaces the committed fragment source by
the draft — also when validation fails — and the error state becomes the thrown
diagnostic verbatim on failure and the empty string on success. -/
theorem c4_commit_and_diagnostic (env : Env) (drv : GLDriver) (st : AppState)
    (hne : st.fragmentShaderTemp ≠ st.fragmentShader) :
    (compileClick env drv st).fragmentShader = st.fragmentShaderTemp ∧
    (compileClick env drv st).errors =
      (match (verifyShaderProgram drv st.renderer.gl).2 with
       | Except.ok _ => ""
       | Except.error e => e) := by
  cases hv : (verifyShaderProgram drv st.renderer.gl).2 with
  | error e =>
      rw [compileClick_err env drv st e hne hv]
      exact ⟨by simp, by simp [hv]⟩
  | ok v =>
      cases v
      rw [compileClick_ok env drv st hne hv]
      refine ⟨?_, by simpa [hv] using (effectAppSuccess_fields _ _ _).2.2.1⟩
      rw [(effectAppSuccess_fields _ _ _).1]
      simp

/-- C4 witness: on `appStateOneQuad` (draft `"B"` differs from committed `"A"`), a
failed compile records the vertex log and still commits the draft, per the theorem
instantiated at the vertex-failing driver. -/
theorem c4_commit_and_diagnostic_witness :
    (compileClick { now := 3, window := (800, 600) } drvVertexFail appStateOneQuad).fragmentShader = "B" ∧
    (compileClick { now := 3, window := (800, 600) } drvVertexFail appStateOneQuad).errors = "ERR_V" := by
  have h := c4_commit_and_diagnostic { now := 3, window := (800, 600) } drvVertexFail
    appStateOneQuad (by decide)
  exact ⟨h.1, h.2.trans (by decide)⟩

/-- C10: the frame clock is owned by the `Renderer` and started at construction
(`getElapsedTime` measures from the construction instant); `switchScene`, shader
verification and a successful compile action all leave the clock origin unchanged, and
the time uniform seeded into the newly attached material equals the renderer's current
elapsed time — the running clock, not zero. -/
theorem c10_clock_continuity (name : String) (drv : GLDriver) (env : Env)
    (rst : RendererState) (st : AppState) (t0 now : Rat) (gl0 : GLState)
    (hok : (verifyShaderProgram drv st.renderer.gl).2 = Except.ok ())
    (hne : st.fragmentShaderTemp ≠ st.fragmentShader) :
    Renderer.getElapsedTime now (Renderer.construct t0 gl0) = now - t0 ∧
    (Renderer.switchScene name rst).clockStart = rst.clockStart ∧
    (Renderer.verify drv rst).1.clockStart = rst.clockStart ∧
    (compileClick env drv st).renderer.clockStart = st.renderer.clockStart ∧
    (compileClick env drv st).materials.getLast? =
      some (st.nextMatId,
        { time := Renderer.getElapsedTime env.now st.renderer,
          resolution := env.window, mouse := (0, 0), drag := (0, 0), zoom := 1 }) := by
  have hcstart : (Renderer.construct t0 gl0).clockStart = t0 := by
    show (Renderer.switchScene "empty" _).clockStart = t0
    rw [switchScene_clockStart]
  have hrg : (Renderer.verify drv (Renderer.switchScene "quad"
      (cleanupEffect { st with fragmentShader := st.fragmentShaderTemp }).renderer)).1.clockStart =
      st.renderer.clockStart := by
    simp
  refine ⟨?_, switchScene_clockStart name rst, rfl, ?_, ?_⟩
  · rw [Renderer.getElapsedTime, hcstart]
  · rw [compileClick_ok env drv st hne hok, (effectAppSuccess_fields _ _ _).2.2.2.2.1, hrg]
  · rw [compileClick_ok env drv st hne hok, (effectAppSuccess_fields _ _ _).2.2.2.2.2.2,
      List.getLast?_concat]
    simp [Renderer.getElapsedTime, Renderer.getResolution, hrg]

/-- C10 witness: at the concrete one-quad state, the clock origin 0 survives a scene
switch, a verification and a successful compile, and the new material is seeded with
elapsed time 3 (the running clock at the compile), not 0. -/
theorem c10_clock_continuity_witness :
    Renderer.getElapsedTime 5 (Renderer.construct 0 glInit) = 5 ∧
    (Renderer.switchScene "viewer" rstSwitch).clockStart = 0 ∧
    (Renderer.verify drvOk rstSwitch).1.clockStart = 0 ∧
    (compileClick { now := 3, window := (800, 600) } drvOk appStateOneQuad).renderer.clockStart = 0 ∧
    (compileClick { now := 3, window := (800, 600) } drvOk appStateOneQuad).materials.getLast? =
      some (6, { time := 3, resolution := (800, 600), mouse := (0, 0), drag := (0, 0), zoom := 1 }) := by
  have h := c10_clock_continuity "viewer" drvOk { now := 3, window := (800, 600) }
    rstSwitch appStateOneQuad 0 5 glInit rfl (by decide)
  exact ⟨h.1.trans (by norm_num), h.2.1.trans rfl, h.2.2.1.trans rfl,
    h.2.2.2.1.trans rfl,
    h.2.2.2.2.trans (by simp [appStateOneQuad, Renderer.getElapsedTime])⟩

/-- Replacement behavior of the success path of the `App.tsx` effect when the active
scene is the `"quad"` scene holding exactly one `"quadX"` quad with its material in
`userData`: afterwards the scene holds exactly the newly built `"quadX"` quad, and the
GPU log gains the old material's dispose followed by the new material's attach. -/
theorem effectAppSuccess_replaces (env : Env) (r : RendererState) (st : AppState)
    (sc : Scene) (q : MeshObj) (m : Nat)
    (hsc : r.scene = some sc) (hname : sc.name = "quad")
    (hch : sc.children = [SceneChild.mesh q]) (hq : q.name = "quadX")
    (hm : q.userDataMat = some m) :
    (effectAppSuccess env r st).renderer.scene =
      some (Scene.mk "quad"
        [SceneChild.mesh (MeshObj.mk "quadX" st.geomId (MaterialSlot.single st.nextMatId)
          (some st.nextMatId))]
        (some (DrawHook.mk st.nextMatId env.window))) ∧
    (effectAppSuccess env r st).renderer.log =
      r.log ++ [REvent.disposeMat m, REvent.attachMat st.nextMatId] := by
  have hfound : sc.getObjectByName "quadX" = some (Found.child (SceneChild.mesh q)) := by
    rw [Scene.getObjectByName, hname, if_neg (by decide), hch]
    simp [List.find?, SceneChild.name, hq]
  constructor
  · simp only [effectAppSuccess, hsc, Option.getD_some, hfound, Scene.removeFound, hch,
      Renderer.getResolution]
    simp [hname]
  · simp only [effectAppSuccess, hsc, Option.getD_some, hfound, Scene.removeFound, hch, hm,
      Renderer.getResolution]
    simp

/-- C1 counterexample: in the `part_000` variant, two consecutive successful compiles
from the mounted app leave TWO quads in the active scene and the log contains no
material dispose at all — the old quad is never found (the lookup name `"quad"` matches
the scene itself, whose removal is a no-op, and the quads are unnamed) and its material
is never released. -/
theorem c1_counterexample :
    sceneChildCount c1Run000 = 2 ∧
    disposeMatEvents c1Run000.renderer.log = [] ∧
    c1Run000.errors = "" := by
  decide

/-- C1 amended: in the `App.tsx` variant the claim holds — when the active `"quad"`
scene holds exactly one `"quadX"` quad with its material recorded in `userData`, a
successful compile leaves exactly one (new) `"quadX"` quad in the scene and the GPU log
shows the old material's dispose immediately before the new material's attach. In the
`part_000` variant quads accumulate without any dispose (see the counterexample). -/
theorem c1_quad_replacement (env : Env) (drv : GLDriver) (st : AppState) (sc : Scene)
    (q : MeshObj) (m : Nat)
    (hsc : st.renderer.scene = some sc)
    (hname : sc.name = "quad")
    (hch : sc.children = [SceneChild.mesh q])
    (hq : q.name = "quadX")
    (hm : q.userDataMat = some m)
    (hok : (verifyShaderProgram drv st.renderer.gl).2 = Except.ok ())
    (hne : st.fragmentShaderTemp ≠ st.fragmentShader) :
    (compileClick env drv st).renderer.scene =
      some (Scene.mk "quad"
        [SceneChild.mesh (MeshObj.mk "quadX" st.geomId (MaterialSlot.single st.nextMatId)
          (some st.nextMatId))]
        (some (DrawHook.mk st.nextMatId env.window))) ∧
    (compileClick env drv st).renderer.log =
      st.renderer.log ++ [REvent.disposeMat m, REvent.attachMat st.nextMatId] := by
  have hclean : (cleanupEffect { st with fragmentShader := st.fragmentShaderTemp }).renderer.scene =
      some { sc with onDraw := none } := by
    simp [hsc]
  have hsw : Renderer.switchScene "quad"
      (cleanupEffect { st with fragmentShader := st.fragmentShaderTemp }).renderer =
      (cleanupEffect { st with fragmentShader := st.fragmentShaderTemp }).renderer :=
    switchScene_noop _ _ _ hclean hname
  have hrep := effectAppSuccess_replaces env
    (Renderer.verify drv
      (cleanupEffect { st with fragmentShader := st.fragmentShaderTemp }).renderer).1
    (cleanupEffect { st with fragmentShader := st.fragmentShaderTemp })
    { sc with onDraw := none } q m (by simpa using hclean) hname hch hq hm
  rw [compileClick_ok env drv st hne hok, hsw]
  refine ⟨hrep.1.trans ?_, hrep.2.trans ?_⟩ <;> simp

/-- C1 witness: on the one-quad state, a successful compile replaces the quad (new
material 6), disposing material 5 right before attaching material 6. -/
theorem c1_quad_replacement_witness :
    (compileClick { now := 3, window := (800, 600) } drvOk appStateOneQuad).renderer.scene =
      some (Scene.mk "quad"
        [SceneChild.mesh (MeshObj.mk "quadX" 0 (MaterialSlot.single 6) (some 6))]
        (some (DrawHook.mk 6 (800, 600)))) ∧
    (compileClick { now := 3, window := (800, 600) } drvOk appStateOneQuad).renderer.log =
      [REvent.renderListsDispose, REvent.attachMat 5, REvent.disposeMat 5, REvent.attachMat 6] := by
  have h := c1_quad_replacement { now := 3, window := (800, 600) } drvOk appStateOneQuad
    sceneOneQuad quadMesh5 5 rfl rfl rfl rfl rfl rfl (by decide)
  exact ⟨h.1.trans (by decide), h.2.trans (by decide)⟩

/-- C2 counterexample: the claim includes that after a failed compile the previous
drawable's "per-frame draw hook [is] still running"; in fact the React effect cleanup
has already cleared `scene.onDraw` before the failing effect body ran, and the failure
path never reinstalls it: the hook that was present before the failed attempt is gone
afterwards. -/
theorem c2_counterexample :
    appStateOneQuad.renderer.scene.map Scene.onDraw = some (some hookMat5) ∧
    (compileClick { now := 3, window := (800, 600) } drvVertexFail
      appStateOneQuad).renderer.scene.map Scene.onDraw = some none := by
  decide

/-- C2 amended: for a fragment source whose validation fails, no new material or
drawable is constructed, the previous drawable is still in the scene (children
untouched) with its material store untouched, the render loop's enabled flag is
untouched, and the diagnostic is recorded — but the scene's per-frame draw hook has
been cleared by the effect cleanup (so the uniforms freeze), and the committed source
has also changed to the draft. -/
theorem c2_failure_keeps_drawable (env : Env) (drv : GLDriver) (st : AppState)
    (msg : String) (sc : Scene)
    (hsc : st.renderer.scene = some sc) (hname : sc.name = "quad")
    (hne : st.fragmentShaderTemp ≠ st.fragmentShader)
    (herr : (verifyShaderProgram drv st.renderer.gl).2 = Except.error msg) :
    (compileClick env drv st).renderer.scene = some { sc with onDraw := none } ∧
    (compileClick env drv st).materials = st.materials ∧
    (compileClick env drv st).nextMatId = st.nextMatId ∧
    (compileClick env drv st).renderer.log = st.renderer.log ∧
    (compileClick env drv st).renderer.enabled = st.renderer.enabled ∧
    (compileClick env drv st).errors = msg ∧
    (compileClick env drv st).fragmentShader = st.fragmentShaderTemp := by
  have hclean : (cleanupEffect { st with fragmentShader := st.fragmentShaderTemp }).renderer.scene =
      some { sc with onDraw := none } := by
    simp [hsc]
  have hsw : Renderer.switchScene "quad"
      (cleanupEffect { st with fragmentShader := st.fragmentShaderTemp }).renderer =
      (cleanupEffect { st with fragmentShader := st.fragmentShaderTemp }).renderer :=
    switchScene_noop _ _ _ hclean hname
  rw [compileClick_err env drv st msg hne herr, hsw]
  refine ⟨?_, by simp, by simp, by simp, by simp, rfl, by simp⟩
  simpa using hclean

/-- C2 witness: on the one-quad state with the vertex-failing driver, the drawable and
its material survive, the log and enabled flag are untouched, the diagnostic `"ERR_V"`
is recorded and the draft is committed. -/
theorem c2_failure_keeps_drawable_witness :
    (compileClick { now := 3, window := (800, 600) } drvVertexFail appStateOneQuad).renderer.scene =
      some { name := "quad", children := [SceneChild.mesh quadMesh5], onDraw := none } ∧
    (compileClick { now := 3, window := (800, 600) } drvVertexFail appStateOneQuad).materials =
      appStateOneQuad.materials ∧
    (compileClick { now := 3, window := (800, 600) } drvVertexFail appStateOneQuad).nextMatId = 6 ∧
    (compileClick { now := 3, window := (800, 600) } drvVertexFail appStateOneQuad).renderer.log =
      [REvent.renderListsDispose, REvent.attachMat 5] ∧
    (compileClick { now := 3, window := (800, 600) } drvVertexFail appStateOneQuad).renderer.enabled = true ∧
    (compileClick { now := 3, window := (800, 600) } drvVertexFail appStateOneQuad).errors = "ERR_V" ∧
    (compileClick { now := 3, window := (800, 600) } drvVertexFail appStateOneQuad).fragmentShader = "B" := by
  have h := c2_failure_keeps_drawable { now := 3, window := (800, 600) } drvVertexFail
    appStateOneQuad "ERR_V" sceneOneQuad rfl rfl (by decide) rfl
  exact ⟨h.1.trans (by decide), h.2.1, h.2.2.1.trans rfl, h.2.2.2.1.trans rfl,
    h.2.2.2.2.1.trans rfl, h.2.2.2.2.2.1, h.2.2.2.2.2.2⟩

/-- Updating material `id` in a store that contains it makes its uniforms the updated
value. -/
theorem matById_update (id : Nat) (u : Uniforms) (ms : List (Nat × Uniforms))
    (hmem : id ∈ ms.map Prod.fst) :
    matById id (updateMaterial id u ms) = some u := by
  induction ms with
  | nil => simp at hmem
  | cons p ps ih =>
      rw [List.map_cons, List.mem_cons] at hmem
      by_cases h : p.1 = id
      · simp [updateMaterial, matById, List.find?, h]
      · have hmem' : id ∈ ps.map Prod.fst := by
          rcases hmem with h1 | h1
          · exact absurd h1.symm h
          · exact h1
        have hih := ih hmem'
        simp only [updateMaterial, List.map_cons, if_neg h] at hih ⊢
        simp only [matById, List.find?] at hih ⊢
        have hpa : (decide (p.1 = id)) = false := by simp [h]
        rw [hpa]
        exact hih

/-- C6 counterexample: the claim says each frame sets the material's resolution uniform
to the then-current viewport resolution; in fact the frame pushes the resolution that
was captured when the compile effect ran. On a frame whose current window is 200×50,
the state compiled at 640×480 still writes (640, 480). -/
theorem c6_counterexample :
    Renderer.getResolution { now := 7, window := (200, 50) } = (200, 50) ∧
    matById 5 (renderFrame { now := 7, window := (200, 50) } appStateOneQuad).materials =
      some { time := 7, resolution := (640, 480), mouse := (0, 0), drag := (0, 0), zoom := 1 } ∧
    ((640 : Rat), (480 : Rat)) ≠ ((200 : Rat), (50 : Rat)) := by
  refine ⟨rfl, ?_, by norm_num⟩
  simp [renderFrame, appStateOneQuad, sceneOneQuad, hookMat5, matById, updateMaterial,
    List.find?, Renderer.getElapsedTime, mouseUniform, dragUniform, initPointer]

/-- C6 amended: on every animation frame with a hook installed, the active material's
uniforms are set to the then-current elapsed time, the current zoom and the latest
sampled pointer position and drag — but the resolution uniform (and the normalization
of mouse and drag) uses the resolution captured at the last successful compile, not the
then-current viewport resolution. -/
theorem c6_frame_uniforms (env : Env) (st : AppState) (sc : Scene) (hk : DrawHook)
    (hsc : st.renderer.scene = some sc) (hhk : sc.onDraw = some hk)
    (hmem : hk.matId ∈ st.materials.map Prod.fst) :
    matById hk.matId (renderFrame env st).materials =
      some { time := Renderer.getElapsedTime env.now st.renderer,
             resolution := hk.capturedRes,
             mouse := mouseUniform st.pointer hk.capturedRes,
             drag := dragUniform st.pointer hk.capturedRes,
             zoom := st.pointer.zoom } := by
  rw [renderFrame]
  simp only [hsc, hhk]
  exact matById_update _ _ _ hmem

/-- C6 witness: on the one-quad state at a frame at time 9, the material's uniforms
become time 9, the captured 640×480 resolution, the zero pointer values and zoom 1. -/
theorem c6_frame_uniforms_witness :
    matById 5 (renderFrame { now := 9, window := (640, 480) } appStateOneQuad).materials =
      some { time := 9, resolution := (640, 480), mouse := (0, 0), drag := (0, 0), zoom := 1 } := by
  have h := c6_frame_uniforms { now := 9, window := (640, 480) } appStateOneQuad
    sceneOneQuad hookMat5 rfl rfl (by decide)
  refine h.trans ?_
  simp [Renderer.getElapsedTime, appStateOneQuad, hookMat5, mouseUniform, dragUniform,
    initPointer]

end ShaderPlayground
